import Mathlib

/-!
Shallow embedding of `src/web_reports.py` (function
`generate_monthly_returns_report` and the period-string generator from
`create_sample_data`).

Modelling conventions:
* Python strings are lists of character codes (`Str := List Nat`), so the
  slicing `s[:4]` / `s[5:]` of the source becomes `List.take 4` / `List.drop 5`.
* Python `float` return values are modelled as exact rationals `ℚ`.
* `pandas` raising `ValueError` is modelled as `Except PipeError`; each
  `PipeError` constructor names the source operation that raises it.
* A pandas cell that is `NaN` (a month with no observation) is `none`.
-/

namespace WebReports

/-- A Python string, as its list of character codes. -/
abbrev Str := List Nat

/-- Whether a character code is an ASCII decimal digit, `'0'..'9'`. -/
def isDigit (c : Nat) : Bool := 48 ≤ c && c ≤ 57

/-- Value of a list of digit character codes read in base 10 (the accumulator
loop inside Python's `int`). -/
def digitsToNat (l : Str) : Nat := l.foldl (fun a c => a * 10 + (c - 48)) 0

/-- Python `int(s)` for an unsigned digit string: `none` (`ValueError`) when
`s` is empty or contains a non-digit. -/
def toNatDigits? (l : Str) : Option Nat :=
  if l ≠ [] ∧ l.all isDigit then some (digitsToNat l) else none

/-- Python `int(s)`: an optional sign (`'-'` = 45, `'+'` = 43) followed by a
nonempty run of digits; anything else raises `ValueError` (= `none`).
(Python also strips surrounding whitespace and allows `_` digit separators;
those inputs never arise in the source or the claims and are not modelled.) -/
def pyInt? (s : Str) : Option Int :=
  match s with
  | [] => none
  | c :: rest =>
    if c = 45 then (toNatDigits? rest).map (fun n => -(n : Int))
    else if c = 43 then (toNatDigits? rest).map (fun n => (n : Int))
    else (toNatDigits? s).map (fun n => (n : Int))

/-- One row of the input DataFrame `df`: a `'YYYY_MM'` string and a
`'monthly_return'` value. -/
structure Obs where
  yyyy_mm : Str
  monthly_return : ℚ
deriving DecidableEq

/-- One row after line 22-23 of the source added the parsed `year` and
`month` columns. -/
structure Parsed where
  year : Int
  month : Int
  ret : ℚ
deriving DecidableEq

/-- The exceptions the source can raise before the artifact is written; each
constructor names the raising operation. -/
inductive PipeError
  /-- `ValueError` from `.astype(int)` on lines 22-23; carries the string
  slice that failed to convert. -/
  | intCastError (raw : Str)
  /-- `ValueError` ("Index contains duplicate entries, cannot reshape") from
  `data.pivot(...)` on line 26. -/
  | pivotDuplicate
  /-- `ValueError` ("attempt to get argmax of an empty sequence") from
  `annual_returns.idxmax()` on line 211, inside the summary-statistics
  block. -/
  | idxmaxEmpty
deriving DecidableEq

/-- Line 22: `data['year'] = data['YYYY_MM'].astype(str).str[:4].astype(int)`,
converting the whole column and raising on the first bad slice. -/
def parseYearCol (rows : List Obs) : Except PipeError (List Int) :=
  rows.mapM (fun o =>
    match pyInt? (o.yyyy_mm.take 4) with
    | none => .error (.intCastError (o.yyyy_mm.take 4))
    | some y => .ok y)

/-- Line 23: `data['month'] = data['YYYY_MM'].astype(str).str[5:].astype(int)`. -/
def parseMonthCol (rows : List Obs) : Except PipeError (List Int) :=
  rows.mapM (fun o =>
    match pyInt? (o.yyyy_mm.drop 5) with
    | none => .error (.intCastError (o.yyyy_mm.drop 5))
    | some m => .ok m)

/-- Lines 22-23 together: the frame `data` with its `year` and `month`
columns filled in, one `Parsed` record per input row. -/
def parseObs (rows : List Obs) : Except PipeError (List Parsed) :=
  match parseYearCol rows with
  | .error e => .error e
  | .ok years =>
    match parseMonthCol rows with
    | .error e => .error e
    | .ok months =>
      .ok (List.zipWith (fun (p : Obs × Int) m => Parsed.mk p.2 m p.1.monthly_return)
        (rows.zip years) months)

/-- The `(index, columns)` key of each row, as fed to `data.pivot` on
line 26. -/
def keys (ps : List Parsed) : List (Int × Int) := ps.map (fun p => (p.year, p.month))

/-- Line 26: `data.pivot(index='year', columns='month', values='monthly_return')`
raises `ValueError` when two rows share a `(year, month)` key; otherwise the
pivot table is determined by `ps` and read through `cell` below. -/
def parseAndBuild (rows : List Obs) : Except PipeError (List Parsed) :=
  match parseObs rows with
  | .error e => .error e
  | .ok ps => if (keys ps).Nodup then .ok ps else .error .pivotDuplicate

/-- The index of the pivot table: the distinct years of the data, ascending
(pandas `pivot` sorts the index). -/
def yearList (ps : List Parsed) : List Int :=
  List.insertionSort (· ≤ ·) (ps.map (fun p => p.year)).dedup

/-- One cell of the pivot table: the `monthly_return` of the (unique, once the
pivot's duplicate check passed) row with this `(year, month)` key, `NaN`
(= `none`) when there is none. -/
def cell (ps : List Parsed) (y m : Int) : Option ℚ :=
  (ps.find? (fun p => p.year == y && p.month == m)).map (fun p => p.ret)

/-- Line 29: `month_cols = [i for i in range(1, 13) if i in pivot_table.columns]`
— the months 1..12 that occur as a column of the pivot table (i.e. as the
month of some row of the data). -/
def month_cols (ps : List Parsed) : List Int :=
  ((List.range 12).map (fun i => (i : Int) + 1)).filter
    (fun m => (ps.map (fun p => p.month)).contains m)

/-- Lines 30+33: `pivot_table['Annual Total'] = pivot_table.sum(axis=1)` after
restricting the columns to `month_cols` — a skip-NaN sum across the year's
row. -/
def annualTotal (ps : List Parsed) (y : Int) : ℚ :=
  (month_cols ps).foldl
    (fun a m => match cell ps y m with | none => a | some v => a + v) 0

/-- The year's present monthly values, in month order 1..12 (what the spec
calls the sum's terms; used to compare against `annualTotal`). -/
def presentVals (ps : List Parsed) (y : Int) : List ℚ :=
  ((List.range 12).map (fun i => (i : Int) + 1)).filterMap (fun m => cell ps y m)

/-- Running best used by `idxmax`: the candidate is replaced only on a
strictly larger value, so the first index attaining the maximum wins. -/
def foldMax (f : Int → ℚ) (acc : Int) (l : List Int) : Int :=
  l.foldl (fun b z => if f z > f b then z else b) acc

/-- Running best used by `idxmin`. -/
def foldMin (f : Int → ℚ) (acc : Int) (l : List Int) : Int :=
  l.foldl (fun b z => if f z < f b then z else b) acc

/-- `Series.idxmax`: first index (in index order) whose value attains the
maximum; `ValueError` (= `none`) on an empty series. -/
def idxmaxA (f : Int → ℚ) : List Int → Option Int
  | [] => none
  | y :: ys => some (foldMax f y ys)

/-- `Series.idxmin`: first index attaining the minimum. -/
def idxminA (f : Int → ℚ) : List Int → Option Int
  | [] => none
  | y :: ys => some (foldMin f y ys)

/-- Line 214: `total_return = annual_returns.sum()`. -/
def total_return (ps : List Parsed) : ℚ :=
  ((yearList ps).map (annualTotal ps)).sum

/-- Line 242: `len(annual_returns)`, the "Years of Data" count. -/
def yearCount (ps : List Parsed) : Nat := (yearList ps).length

/-- Line 213: `avg_annual_return = annual_returns.mean()` = sum / length. -/
def avg_annual_return (ps : List Parsed) : ℚ :=
  total_return ps / (yearCount ps : ℚ)

/-! ### Rendering (lines 185-205 of the source) -/

/-- Decimal digits of `n`, most significant first, with explicit fuel so the
recursion is structural (the fuel never runs out when it starts at `n`). -/
def natDigitsAux : Nat → Nat → Str
  | 0, n => [48 + n % 10]
  | fuel + 1, n => if n < 10 then [48 + n] else natDigitsAux fuel (n / 10) ++ [48 + n % 10]

/-- Decimal digits of a natural number, most significant first (`str(n)`). -/
def natDigits (n : Nat) : Str := natDigitsAux n n

/-- Two-digit zero-padded decimal rendering of `k < 100` (`f"{k:02d}"`, and
the two digits after the point in `f"{v:.2f}"`). -/
def pad02 (k : Nat) : Str := [48 + k / 10, 48 + k % 10]

/-- Python `f"{value:.2f}"` over the rational model: the value rounded to
hundredths, rendered as optional minus sign, integer digits, `'.'` (46) and
exactly two fractional digits. (The float's round-half-to-even ties and the
`"-0.00"` sign of tiny negatives are not reproduced by the rational
rounding; the claims checked here concern only the shape of the output.) -/
def format2f (q : ℚ) : Str :=
  let n : Int := round (q * 100)
  (if n < 0 then [45] else []) ++ natDigits (n.natAbs / 100) ++ [46] ++ pad02 (n.natAbs % 100)

/-- Line 194: `f"{value:.2f}%"` — the formatted value with `'%'` (37)
appended. -/
def formatPct (q : ℚ) : Str := format2f q ++ [37]

/-- The CSS class chosen on line 195 / 203. -/
inductive SignClass
  | positive
  | negative
deriving DecidableEq

/-- A rendered table cell: either the placeholder `<td>-</td>` of line 198,
or a value cell with its sign class and formatted text (lines 194-196). -/
inductive Cell
  | absent
  | present (cls : SignClass) (txt : Str)
deriving DecidableEq

/-- Lines 190-198: an absent (`None`) value renders as the placeholder,
a present value as `f"{value:.2f}%"` with class `positive` iff `value >= 0`. -/
def renderCell (v : Option ℚ) : Cell :=
  match v with
  | none => Cell.absent
  | some value => Cell.present (if value ≥ 0 then .positive else .negative) (formatPct value)

/-- The text inside the `<td>` of a cell: `'-'` (45) for the placeholder. -/
def cellText : Cell → Str
  | Cell.absent => [45]
  | Cell.present _ t => t

/-- One `<tr>` of the report body: the year header, the twelve month cells in
order Jan..Dec, and the annual-total cell (lines 186-204; the annual cell's
sign class is also decided by `>= 0`, line 203). -/
structure RenderedRow where
  year : Int
  monthCells : List Cell
  annualCell : Cell
deriving DecidableEq

def renderRow (ps : List Parsed) (y : Int) : RenderedRow :=
  { year := y
    monthCells :=
      ((List.range 12).map (fun i => (i : Int) + 1)).map (fun m => renderCell (cell ps y m))
    annualCell := renderCell (some (annualTotal ps y)) }

/-- Line 185: `for year in sorted(pivot_table.index):` — the rows in the
order they are emitted into the HTML. -/
def renderRows (ps : List Parsed) : List RenderedRow :=
  (List.insertionSort (· ≤ ·) (yearList ps)).map (renderRow ps)

/-! ### Pipeline assembly -/

/-- Lines 211-212: `idxmax` is evaluated first and raises on an empty
`annual_returns` series; on a non-empty series both succeed. -/
def computeStats (ps : List Parsed) : Except PipeError (Int × Int) :=
  match idxmaxA (annualTotal ps) (yearList ps), idxminA (annualTotal ps) (yearList ps) with
  | some b, some w => .ok (b, w)
  | _, _ => .error .idxmaxEmpty

/-- The in-memory document the source writes on line 258: the rendered rows
and the summary-statistics panel (lines 216-249). -/
structure Report where
  rows : List RenderedRow
  best_year : Int
  worst_year : Int
  avg_annual : ℚ
  total_cumulative : ℚ
  years_of_data : Nat
  months_of_data : Nat
deriving DecidableEq

/-- `generate_monthly_returns_report`: parse (lines 22-23), pivot (line 26),
render the body rows (lines 185-205), compute the summary statistics
(lines 208-214), and only then write the artifact. Any exception propagates
before the `open(output_file, 'w')` of line 257 runs. `months_of_data` is
`len(data['monthly_return'])` (line 246), the raw row count. -/
def generate_monthly_returns_report (rows : List Obs) : Except PipeError Report :=
  match parseAndBuild rows with
  | .error e => .error e
  | .ok ps =>
    let rendered := renderRows ps
    match computeStats ps with
    | .error e => .error e
    | .ok bw =>
      .ok { rows := rendered
            best_year := bw.1
            worst_year := bw.2
            avg_annual := avg_annual_return ps
            total_cumulative := total_return ps
            years_of_data := yearCount ps
            months_of_data := rows.length }

/-- What ends up on disk: the document when the pipeline succeeded, nothing
when it raised (the `open`/`write` on lines 257-258 is only reached on
success). -/
def writtenArtifact (rows : List Obs) : Option Report :=
  (generate_monthly_returns_report rows).toOption

/-! ### Frame-aliasing model (lines 19, 22, 23)

To state that the caller's DataFrame is not modified we make object identity
explicit: a heap maps references to frames, `df.copy()` allocates a fresh
reference, and each column assignment mutates one reference in place. The
source's frame-mutating statements are exactly: line 19 `data = df.copy()`,
line 22 `data['year'] = ...`, line 23 `data['month'] = ...` (the pivot on
line 26 builds fresh objects from `data`). -/

/-- A value stored in a DataFrame column. -/
inductive CellV
  | i (n : Int)
  | q (r : ℚ)
  | s (t : Str)
deriving DecidableEq

/-- A DataFrame object: named columns of values. -/
abbrev Frame := List (Str × List CellV)

/-- A heap of frame objects addressed by reference. -/
abbrev Heap := Nat → Option Frame

/-- Column assignment `f[name] = col` on one frame object. -/
def setColF (f : Frame) (name : Str) (col : List CellV) : Frame :=
  (f.filter (fun c => c.1 ≠ name)) ++ [(name, col)]

/-- The frame-level effects of the source. -/
inductive FrameOp
  /-- `dst = src.copy()`: `dst` becomes a fresh deep copy of `src`. -/
  | copy (src dst : Nat)
  /-- `h[tgt][name] = col`: in-place column assignment on object `tgt`. -/
  | setCol (tgt : Nat) (name : Str) (col : List CellV)

def stepOp (h : Heap) : FrameOp → Heap
  | .copy src dst => fun r => if r = dst then h src else h r
  | .setCol tgt name col =>
      fun r => if r = tgt then (h tgt).map (fun f => setColF f name col) else h r

def runOps (h : Heap) : List FrameOp → Heap
  | [] => h
  | op :: ops => runOps (stepOp h op) ops

/-- `"year"` as character codes. -/
def yearColName : Str := [121, 101, 97, 114]

/-- `"month"` as character codes. -/
def monthColName : Str := [109, 111, 110, 116, 104]

/-- Lines 19/22/23 as frame operations: reference 0 is the caller's `df`,
reference 1 is `data`; the copy targets 1 and both column writes target 1. -/
def reportFrameOps (yearCol monthCol : List CellV) : List FrameOp :=
  [FrameOp.copy 0 1,
   FrameOp.setCol 1 yearColName yearCol,
   FrameOp.setCol 1 monthColName monthCol]

/-- The caller's heap on entry: `df` lives at reference 0, nothing else is
allocated. -/
def callerHeap (df : Frame) : Heap :=
  fun r => if r = 0 then some df else none

/-! ### The sample-data period generator (line 281 of the source) -/

/-- `create_sample_data` line 281: `f"{year}_{month:02d}"` — the year's
decimal digits, `'_'` (95), and the zero-padded two-digit month. -/
def formatPeriod (y m : Nat) : Str := natDigits y ++ [95] ++ pad02 m

/-- The parser side of lines 22-23, applied to one period string: the
`(year, month)` pair the pipeline extracts from it. -/
def parsePeriod (s : Str) : Option (Int × Int) := do
  let y ← pyInt? (s.take 4)
  let m ← pyInt? (s.drop 5)
  return (y, m)

/-! ### Lemmas about decimal digit strings -/

theorem natDigitsAux_irrel (n : Nat) :
    ∀ f1 f2, n ≤ f1 → n ≤ f2 → natDigitsAux f1 n = natDigitsAux f2 n := by
  induction n using Nat.strong_induction_on with
  | _ n ih =>
    intro f1 f2 h1 h2
    match f1, f2 with
    | 0, 0 => rfl
    | 0, f2 + 1 =>
      have hn : n = 0 := by omega
      subst hn
      simp [natDigitsAux]
    | f1 + 1, 0 =>
      have hn : n = 0 := by omega
      subst hn
      simp [natDigitsAux]
    | f1 + 1, f2 + 1 =>
      by_cases h : n < 10
      · simp [natDigitsAux, h]
      · simp only [natDigitsAux, if_neg h]
        have := ih (n / 10) (by omega) f1 f2 (by omega) (by omega)
        rw [this]

theorem natDigits_lt10 (n : Nat) (h : n < 10) : natDigits n = [48 + n] := by
  unfold natDigits
  match n with
  | 0 => simp [natDigitsAux]
  | k + 1 => simp [natDigitsAux, h]

theorem natDigits_ge10 (n : Nat) (h : 10 ≤ n) :
    natDigits n = natDigits (n / 10) ++ [48 + n % 10] := by
  unfold natDigits
  obtain ⟨f, rfl⟩ : ∃ f, n = f + 1 := ⟨n - 1, by omega⟩
  simp only [natDigitsAux, if_neg (by omega : ¬ f + 1 < 10)]
  rw [natDigitsAux_irrel ((f + 1) / 10) f ((f + 1) / 10) (by omega) (by omega)]

theorem natDigits_all_digits (n : Nat) : ∀ c ∈ natDigits n, isDigit c = true := by
  induction n using Nat.strong_induction_on with
  | _ n ih =>
    by_cases h : n < 10
    · rw [natDigits_lt10 n h]
      intro c hc
      simp at hc
      simp [hc, isDigit]
      omega
    · rw [natDigits_ge10 n (by omega)]
      intro c hc
      rcases List.mem_append.mp hc with hc | hc
      · exact ih (n / 10) (by omega) c hc
      · simp at hc
        simp [hc, isDigit]
        omega

theorem natDigits_ne_nil (n : Nat) : natDigits n ≠ [] := by
  by_cases h : n < 10
  · rw [natDigits_lt10 n h]; simp
  · rw [natDigits_ge10 n (by omega)]; simp

theorem digitsToNat_append_singleton (l : Str) (c : Nat) :
    digitsToNat (l ++ [c]) = digitsToNat l * 10 + (c - 48) := by
  simp [digitsToNat, List.foldl_append]

theorem digitsToNat_natDigits (n : Nat) : digitsToNat (natDigits n) = n := by
  induction n using Nat.strong_induction_on with
  | _ n ih =>
    by_cases h : n < 10
    · rw [natDigits_lt10 n h]
      simp [digitsToNat]
    · rw [natDigits_ge10 n (by omega), digitsToNat_append_singleton,
        ih (n / 10) (by omega)]
      omega

theorem natDigits_length_four (y : Nat) (h1 : 1000 ≤ y) (h2 : y ≤ 9999) :
    (natDigits y).length = 4 := by
  rw [natDigits_ge10 y (by omega), natDigits_ge10 (y / 10) (by omega),
    natDigits_ge10 (y / 10 / 10) (by omega), natDigits_lt10 (y / 10 / 10 / 10) (by omega)]
  simp

theorem pyInt?_digits (s : Str) (hne : s ≠ []) (hd : ∀ c ∈ s, isDigit c = true) :
    pyInt? s = some ((digitsToNat s : Nat) : Int) := by
  match s with
  | c :: rest =>
    have hc : isDigit c = true := hd c (by simp)
    have hc' : 48 ≤ c := by simp [isDigit] at hc; omega
    simp only [pyInt?]
    rw [if_neg (by omega), if_neg (by omega)]
    rw [toNatDigits?, if_pos ⟨by simp, by simpa [List.all_eq_true] using hd⟩]
    simp

/-! ### Lemmas about the running-argmax/argmin folds -/

theorem foldMax_spec (f : Int → ℚ) (l : List Int) :
    ∀ acc : Int, (∀ y ∈ l, acc ≤ y) → List.Sorted (· ≤ ·) l →
      (foldMax f acc l = acc ∨ foldMax f acc l ∈ l) ∧
      f acc ≤ f (foldMax f acc l) ∧
      (∀ y ∈ l, f y ≤ f (foldMax f acc l)) ∧
      (∀ y ∈ l, f y = f (foldMax f acc l) → foldMax f acc l ≤ y) ∧
      (f (foldMax f acc l) = f acc → foldMax f acc l = acc) := by
  induction l with
  | nil => intro acc _ _; simp [foldMax]
  | cons y ys ih =>
    intro acc hle hs
    rw [List.sorted_cons] at hs
    have hacc_y : acc ≤ y := hle y (by simp)
    set acc' := if f y > f acc then y else acc with hacc'
    have hys : ∀ z ∈ ys, acc' ≤ z := by
      intro z hz
      rcases le_or_lt (f y) (f acc) with h | h
      · rw [hacc', if_neg (by exact not_lt.mpr h)]
        exact le_trans hacc_y (hs.1 z hz)
      · rw [hacc', if_pos h]
        exact hs.1 z hz
    obtain ⟨c1, c2, c3, c4, c5⟩ := ih acc' hys hs.2
    have hfold : foldMax f acc (y :: ys) = foldMax f acc' ys := rfl
    have hacc'_le : f acc ≤ f acc' := by
      rw [hacc']; split <;> [exact le_of_lt (by assumption); exact le_refl _]
    have hy_le : f y ≤ f acc' := by
      rw [hacc']; split
      · exact le_refl _
      · exact not_lt.mp (by assumption)
    refine ⟨?_, ?_, ?_, ?_, ?_⟩
    · rw [hfold]
      rcases c1 with h | h
      · rw [h, hacc']; split
        · exact Or.inr (by simp)
        · exact Or.inl rfl
      · exact Or.inr (by simp [h])
    · rw [hfold]; exact le_trans hacc'_le c2
    · rw [hfold]
      intro z hz
      rcases List.mem_cons.mp hz with h | h
      · rw [h]; exact le_trans hy_le c2
      · exact c3 z h
    · rw [hfold]
      intro z hz hz_eq
      rcases List.mem_cons.mp hz with h | h
      · subst h
        rcases lt_or_le (f acc) (f z) with hcase | hcase
        · have hz' : acc' = z := by rw [hacc', if_pos hcase]
          have h2 : foldMax f acc' ys = acc' := c5 (by rw [← hz_eq, hz'])
          rw [h2, hz']
        · have hz' : acc' = acc := by rw [hacc', if_neg (not_lt.mpr hcase)]
          have hfz : f (foldMax f acc' ys) = f acc' := by
            refine le_antisymm ?_ c2
            rw [← hz_eq, hz']
            exact hcase
          rw [c5 hfz, hz']
          exact hacc_y
      · exact c4 z h hz_eq
    · rw [hfold]
      intro hEq
      have h1 : f acc' = f acc := le_antisymm (hEq ▸ c2) hacc'_le
      have h2 : foldMax f acc' ys = acc' := c5 (hEq.trans h1.symm)
      rw [h2]
      rcases lt_or_le (f acc) (f y) with hgt | hle2
      · exfalso
        have hy' : acc' = y := by rw [hacc', if_pos hgt]
        rw [hy'] at h1
        linarith
      · rw [hacc', if_neg (not_lt.mpr hle2)]

theorem foldMin_spec (f : Int → ℚ) (l : List Int) :
    ∀ acc : Int, (∀ y ∈ l, acc ≤ y) → List.Sorted (· ≤ ·) l →
      (foldMin f acc l = acc ∨ foldMin f acc l ∈ l) ∧
      f (foldMin f acc l) ≤ f acc ∧
      (∀ y ∈ l, f (foldMin f acc l) ≤ f y) ∧
      (∀ y ∈ l, f y = f (foldMin f acc l) → foldMin f acc l ≤ y) ∧
      (f (foldMin f acc l) = f acc → foldMin f acc l = acc) := by
  induction l with
  | nil => intro acc _ _; simp [foldMin]
  | cons y ys ih =>
    intro acc hle hs
    rw [List.sorted_cons] at hs
    have hacc_y : acc ≤ y := hle y (by simp)
    set acc' := if f y < f acc then y else acc with hacc'
    have hys : ∀ z ∈ ys, acc' ≤ z := by
      intro z hz
      rcases le_or_lt (f acc) (f y) with h | h
      · rw [hacc', if_neg (by exact not_lt.mpr h)]
        exact le_trans hacc_y (hs.1 z hz)
      · rw [hacc', if_pos h]
        exact hs.1 z hz
    obtain ⟨c1, c2, c3, c4, c5⟩ := ih acc' hys hs.2
    have hfold : foldMin f acc (y :: ys) = foldMin f acc' ys := rfl
    have hacc'_le : f acc' ≤ f acc := by
      rw [hacc']
      split
      · exact le_of_lt (by assumption)
      · exact le_refl _
    have hy_le : f acc' ≤ f y := by
      rw [hacc']
      split
      · exact le_refl _
      · exact not_lt.mp (by assumption)
    refine ⟨?_, ?_, ?_, ?_, ?_⟩
    · rw [hfold]
      rcases c1 with h | h
      · rw [h, hacc']
        split
        · exact Or.inr (by simp)
        · exact Or.inl rfl
      · exact Or.inr (by simp [h])
    · rw [hfold]; exact le_trans c2 hacc'_le
    · rw [hfold]
      intro z hz
      rcases List.mem_cons.mp hz with h | h
      · rw [h]; exact le_trans c2 hy_le
      · exact c3 z h
    · rw [hfold]
      intro z hz hz_eq
      rcases List.mem_cons.mp hz with h | h
      · subst h
        rcases lt_or_le (f z) (f acc) with hcase | hcase
        · have hz' : acc' = z := by rw [hacc', if_pos hcase]
          have h2 : foldMin f acc' ys = acc' := c5 (by rw [← hz_eq, hz'])
          rw [h2, hz']
        · have hz' : acc' = acc := by rw [hacc', if_neg (not_lt.mpr hcase)]
          have hfz : f (foldMin f acc' ys) = f acc' := by
            refine le_antisymm c2 ?_
            rw [← hz_eq, hz']
            exact hcase
          rw [c5 hfz, hz']
          exact hacc_y
      · exact c4 z h hz_eq
    · rw [hfold]
      intro hEq
      have h1 : f acc' = f acc := le_antisymm hacc'_le (hEq ▸ c2)
      have h2 : foldMin f acc' ys = acc' := c5 (hEq.trans h1.symm)
      rw [h2]
      rcases lt_or_le (f y) (f acc) with hgt | hle2
      · exfalso
        have hy' : acc' = y := by rw [hacc', if_pos hgt]
        rw [hy'] at h1
        linarith
      · rw [hacc', if_neg (not_lt.mpr hle2)]

/-! ### Lemmas about the pivot index -/

theorem yearList_sorted (ps : List Parsed) : List.Sorted (· ≤ ·) (yearList ps) :=
  List.sorted_insertionSort _ _

theorem yearList_nodup (ps : List Parsed) : (yearList ps).Nodup :=
  ((List.perm_insertionSort _ _).nodup_iff).mpr (List.nodup_dedup _)

theorem mem_yearList (ps : List Parsed) (y : Int) :
    y ∈ yearList ps ↔ ∃ p ∈ ps, p.year = y := by
  unfold yearList
  rw [List.mem_insertionSort, List.mem_dedup, List.mem_map]

/-! ### Claim theorems -/

/-- C3: for every non-empty matrix, `best_year` is the argmax and
`worst_year` the argmin of `annual_total` over the years: the best year's
annual total is `≥` every year's, the worst year's is `≤` every year's, and
on a tie the smallest (earliest) year is selected. -/
theorem best_worst_year_argmax_argmin (ps : List Parsed) (h : yearList ps ≠ []) :
    ∃ b w, computeStats ps = .ok (b, w) ∧
      b ∈ yearList ps ∧ w ∈ yearList ps ∧
      (∀ y ∈ yearList ps, annualTotal ps y ≤ annualTotal ps b) ∧
      (∀ y ∈ yearList ps, annualTotal ps w ≤ annualTotal ps y) ∧
      (∀ y ∈ yearList ps, annualTotal ps y = annualTotal ps b → b ≤ y) ∧
      (∀ y ∈ yearList ps, annualTotal ps y = annualTotal ps w → w ≤ y) := by
  obtain ⟨y0, ys, hys⟩ : ∃ y0 ys, yearList ps = y0 :: ys := by
    cases hyl : yearList ps with
    | nil => exact absurd hyl h
    | cons a l => exact ⟨a, l, rfl⟩
  have hsorted := yearList_sorted ps
  rw [hys, List.sorted_cons] at hsorted
  obtain ⟨m1, m2, m3, m4, m5⟩ := foldMax_spec (annualTotal ps) ys y0 hsorted.1 hsorted.2
  obtain ⟨n1, n2, n3, n4, n5⟩ := foldMin_spec (annualTotal ps) ys y0 hsorted.1 hsorted.2
  refine ⟨foldMax (annualTotal ps) y0 ys, foldMin (annualTotal ps) y0 ys,
    ?_, ?_, ?_, ?_, ?_, ?_, ?_⟩
  · simp [computeStats, hys, idxmaxA, idxminA]
  · rw [hys]
    rcases m1 with h' | h'
    · rw [h']; simp
    · exact List.mem_cons_of_mem _ h'
  · rw [hys]
    rcases n1 with h' | h'
    · rw [h']; simp
    · exact List.mem_cons_of_mem _ h'
  · rw [hys]
    intro y hy
    rcases List.mem_cons.mp hy with h' | h'
    · rw [h']; exact m2
    · exact m3 y h'
  · rw [hys]
    intro y hy
    rcases List.mem_cons.mp hy with h' | h'
    · rw [h']; exact n2
    · exact n3 y h'
  · rw [hys]
    intro y hy heq
    rcases List.mem_cons.mp hy with h' | h'
    · subst h'
      exact le_of_eq (m5 heq.symm)
    · exact m4 y h' heq
  · rw [hys]
    intro y hy heq
    rcases List.mem_cons.mp hy with h' | h'
    · subst h'
      exact le_of_eq (n5 heq.symm)
    · exact n4 y h' heq

/-- Witness for C3 at a concrete matrix with a tie for the maximum:
years 2021 and 2022 both total `5`, year 2023 totals `3`; `best_year` must
be the earlier 2021 and `worst_year` 2023. -/
theorem best_worst_year_argmax_argmin_witness :
    yearList [⟨2021, 1, (5 : ℚ)⟩, ⟨2022, 1, 5⟩, ⟨2023, 1, 3⟩] ≠ [] ∧
    (∃ b w, computeStats [⟨2021, 1, (5 : ℚ)⟩, ⟨2022, 1, 5⟩, ⟨2023, 1, 3⟩] = .ok (b, w) ∧
      b ∈ yearList [⟨2021, 1, (5 : ℚ)⟩, ⟨2022, 1, 5⟩, ⟨2023, 1, 3⟩] ∧
      w ∈ yearList [⟨2021, 1, (5 : ℚ)⟩, ⟨2022, 1, 5⟩, ⟨2023, 1, 3⟩] ∧
      (∀ y ∈ yearList [⟨2021, 1, (5 : ℚ)⟩, ⟨2022, 1, 5⟩, ⟨2023, 1, 3⟩],
        annualTotal [⟨2021, 1, (5 : ℚ)⟩, ⟨2022, 1, 5⟩, ⟨2023, 1, 3⟩] y ≤
          annualTotal [⟨2021, 1, (5 : ℚ)⟩, ⟨2022, 1, 5⟩, ⟨2023, 1, 3⟩] b) ∧
      (∀ y ∈ yearList [⟨2021, 1, (5 : ℚ)⟩, ⟨2022, 1, 5⟩, ⟨2023, 1, 3⟩],
        annualTotal [⟨2021, 1, (5 : ℚ)⟩, ⟨2022, 1, 5⟩, ⟨2023, 1, 3⟩] w ≤
          annualTotal [⟨2021, 1, (5 : ℚ)⟩, ⟨2022, 1, 5⟩, ⟨2023, 1, 3⟩] y) ∧
      (∀ y ∈ yearList [⟨2021, 1, (5 : ℚ)⟩, ⟨2022, 1, 5⟩, ⟨2023, 1, 3⟩],
        annualTotal [⟨2021, 1, (5 : ℚ)⟩, ⟨2022, 1, 5⟩, ⟨2023, 1, 3⟩] y =
          annualTotal [⟨2021, 1, (5 : ℚ)⟩, ⟨2022, 1, 5⟩, ⟨2023, 1, 3⟩] b → b ≤ y) ∧
      (∀ y ∈ yearList [⟨2021, 1, (5 : ℚ)⟩, ⟨2022, 1, 5⟩, ⟨2023, 1, 3⟩],
        annualTotal [⟨2021, 1, (5 : ℚ)⟩, ⟨2022, 1, 5⟩, ⟨2023, 1, 3⟩] y =
          annualTotal [⟨2021, 1, (5 : ℚ)⟩, ⟨2022, 1, 5⟩, ⟨2023, 1, 3⟩] w → w ≤ y)) :=
  ⟨by decide, best_worst_year_argmax_argmin _ (by decide)⟩

/-- The skip-NaN row sum is the plain sum of the cells that are present. -/
theorem foldOpt_sum (ps : List Parsed) (y : Int) :
    ∀ (l : List Int) (a0 : ℚ),
      l.foldl (fun a m => match cell ps y m with | none => a | some v => a + v) a0
        = a0 + (l.filterMap (cell ps y)).sum := by
  intro l
  induction l with
  | nil => intro a0; simp
  | cons m ms ih =>
    intro a0
    cases hc : cell ps y m with
    | none => simp [List.foldl_cons, List.filterMap_cons, hc, ih]
    | some v => simp [List.foldl_cons, List.filterMap_cons, hc, ih, add_assoc]

/-- A month that is no row's month has an empty pivot column: every cell of
it is `NaN`. -/
theorem cell_eq_none_of_not_month (ps : List Parsed) (y m : Int)
    (h : ¬ m ∈ ps.map (fun p => p.month)) : cell ps y m = none := by
  unfold cell
  cases hf : ps.find? (fun p => p.year == y && p.month == m) with
  | none => rfl
  | some p =>
    exfalso
    have hp := List.find?_some hf
    have hmem := List.mem_of_find?_eq_some hf
    simp only [Bool.and_eq_true, beq_iff_eq] at hp
    exact h (hp.2 ▸ List.mem_map_of_mem _ hmem)

/-- Dropping columns whose cells are all `NaN` does not change which values
are present. -/
theorem filterMap_filter_of_none (g : Int → Option ℚ) (p : Int → Bool) :
    ∀ l : List Int, (∀ m ∈ l, p m = false → g m = none) →
      (l.filter p).filterMap g = l.filterMap g := by
  intro l
  induction l with
  | nil => intro _; rfl
  | cons m ms ih =>
    intro h
    cases hp : p m with
    | true =>
      rw [List.filter_cons_of_pos hp, List.filterMap_cons, List.filterMap_cons]
      cases g m <;> simp [ih (fun x hx => h x (List.mem_cons_of_mem _ hx))]
    | false =>
      rw [List.filter_cons_of_neg (by simp [hp]), List.filterMap_cons,
        h m (by simp) hp, ih (fun x hx => h x (List.mem_cons_of_mem _ hx))]

/-- C4: `annual_total[year]` is the sum of that year's present monthly
values only — absent months contribute nothing and are not read as zero —
and a year with no present months totals `0`. -/
theorem annualTotal_eq_sum_present (ps : List Parsed) (y : Int) :
    annualTotal ps y = (presentVals ps y).sum ∧
    (presentVals ps y = [] → annualTotal ps y = 0) := by
  have h1 : annualTotal ps y = (presentVals ps y).sum := by
    unfold annualTotal presentVals month_cols
    rw [foldOpt_sum, zero_add,
      filterMap_filter_of_none (cell ps y) _ _ (fun m _ hm => by
        refine cell_eq_none_of_not_month ps y m ?_
        simpa using hm)]
  exact ⟨h1, fun h => by rw [h1, h]; rfl⟩

/-- Witness for C4 at a year whose only observation carries month 13 (so the
row exists but every 1..12 cell is absent): the annual total is `0`, and at
a normal year: `2 + (-1) = 1`. -/
theorem annualTotal_eq_sum_present_witness :
    (presentVals [⟨2023, 13, (1 : ℚ)⟩] 2023 = [] → annualTotal [⟨2023, 13, (1 : ℚ)⟩] 2023 = 0) ∧
    presentVals [⟨2023, 13, (1 : ℚ)⟩] 2023 = [] ∧
    annualTotal [⟨2022, 1, (2 : ℚ)⟩, ⟨2022, 2, -1⟩] 2022
      = (presentVals [⟨2022, 1, (2 : ℚ)⟩, ⟨2022, 2, -1⟩] 2022).sum :=
  ⟨(annualTotal_eq_sum_present [⟨2023, 13, (1 : ℚ)⟩] 2023).2, by decide,
    (annualTotal_eq_sum_present [⟨2022, 1, (2 : ℚ)⟩, ⟨2022, 2, -1⟩] 2022).1⟩

/-- C6: for every non-empty matrix, `average_annual_return * year_count`
equals `total_cumulative_return` (exactly, in the rational model of the
float arithmetic). -/
theorem avg_times_count_eq_total (ps : List Parsed) (h : yearList ps ≠ []) :
    avg_annual_return ps * (yearCount ps : ℚ) = total_return ps := by
  unfold avg_annual_return
  have hc : ((yearCount ps : ℚ)) ≠ 0 := by
    have hne : yearCount ps ≠ 0 := by
      unfold yearCount
      simpa [List.length_eq_zero] using h
    exact_mod_cast hne
  exact div_mul_cancel₀ _ hc

/-- Witness for C6 at a two-year matrix. -/
theorem avg_times_count_eq_total_witness :
    yearList [⟨2022, 1, (2 : ℚ)⟩, ⟨2023, 1, 5⟩] ≠ [] ∧
    avg_annual_return [⟨2022, 1, (2 : ℚ)⟩, ⟨2023, 1, 5⟩]
        * (yearCount [⟨2022, 1, (2 : ℚ)⟩, ⟨2023, 1, 5⟩] : ℚ)
      = total_return [⟨2022, 1, (2 : ℚ)⟩, ⟨2023, 1, 5⟩] :=
  ⟨by decide, avg_times_count_eq_total _ (by decide)⟩

/-- C9: two observations with the same `(year, month)` key make
`DataFrame.pivot` raise, the pipeline propagates the error, and no artifact
is written — a duplicate is never silently resolved to one of the values. -/
theorem duplicate_period_rejected (rows : List Obs) (ps : List Parsed)
    (hp : parseObs rows = .ok ps) (hdup : ¬ (keys ps).Nodup) :
    generate_monthly_returns_report rows = .error .pivotDuplicate ∧
    writtenArtifact rows = none := by
  have hpb : parseAndBuild rows = .error .pivotDuplicate := by
    unfold parseAndBuild
    rw [hp]
    simp [hdup]
  refine ⟨?_, ?_⟩
  · unfold generate_monthly_returns_report
    rw [hpb]
  · unfold writtenArtifact generate_monthly_returns_report
    rw [hpb]
    rfl

/-- Witness for C9: the period `"2022_01"` supplied twice. -/
theorem duplicate_period_rejected_witness :
    parseObs [⟨[50, 48, 50, 50, 95, 48, 49], (2 : ℚ)⟩, ⟨[50, 48, 50, 50, 95, 48, 49], 3⟩]
      = .ok [⟨2022, 1, 2⟩, ⟨2022, 1, 3⟩] ∧
    ¬ (keys [⟨2022, 1, (2 : ℚ)⟩, ⟨2022, 1, 3⟩]).Nodup ∧
    generate_monthly_returns_report
        [⟨[50, 48, 50, 50, 95, 48, 49], (2 : ℚ)⟩, ⟨[50, 48, 50, 50, 95, 48, 49], 3⟩]
      = .error .pivotDuplicate ∧
    writtenArtifact
        [⟨[50, 48, 50, 50, 95, 48, 49], (2 : ℚ)⟩, ⟨[50, 48, 50, 50, 95, 48, 49], 3⟩]
      = none :=
  ⟨rfl, by decide,
    (duplicate_period_rejected
      [⟨[50, 48, 50, 50, 95, 48, 49], (2 : ℚ)⟩, ⟨[50, 48, 50, 50, 95, 48, 49], 3⟩]
      [⟨2022, 1, 2⟩, ⟨2022, 1, 3⟩] rfl (by decide)).1,
    (duplicate_period_rejected
      [⟨[50, 48, 50, 50, 95, 48, 49], (2 : ℚ)⟩, ⟨[50, 48, 50, 50, 95, 48, 49], 3⟩]
      [⟨2022, 1, 2⟩, ⟨2022, 1, 3⟩] rfl (by decide)).2⟩

/-- C10: the pipeline's frame mutations all target the copy made on line 19
(or objects derived from it), so the caller's DataFrame — reference 0 — is
unchanged after the parsing stage: no columns added, no values modified. -/
theorem caller_frame_unchanged (df : Frame) (yearCol monthCol : List CellV) :
    runOps (callerHeap df) (reportFrameOps yearCol monthCol) 0 = some df := rfl

/-- C7: for every valid period of the form `"YYYY_MM"` (4-digit year, month
01-12, one delimiter character), the pipeline's slicing parser recovers
exactly the `(year, month)` pair that the generator encoded. -/
theorem parse_format_roundtrip (y m : Nat) (h1 : 1000 ≤ y) (h2 : y ≤ 9999)
    (h3 : 1 ≤ m) (h4 : m ≤ 12) :
    parsePeriod (formatPeriod y m) = some ((y : Int), (m : Int)) := by
  have hlen : (natDigits y).length = 4 := natDigits_length_four y h1 h2
  have htake : (formatPeriod y m).take 4 = natDigits y := by
    unfold formatPeriod
    rw [List.append_assoc, List.take_append_of_le_length (by omega),
      List.take_of_length_le (by omega)]
  have hdrop : (formatPeriod y m).drop 5 = pad02 m := by
    unfold formatPeriod
    rw [List.append_assoc, ← List.append_assoc]
    have h5 : (natDigits y ++ [95]).length = 5 := by simp [hlen]
    rw [← h5, List.drop_left]
  have hyear : pyInt? (natDigits y) = some ((y : Nat) : Int) := by
    rw [pyInt?_digits (natDigits y) (natDigits_ne_nil y) (natDigits_all_digits y),
      digitsToNat_natDigits]
  have hmonth : pyInt? (pad02 m) = some ((m : Nat) : Int) := by
    rw [pyInt?_digits (pad02 m) (by simp [pad02]) ?_]
    · have : digitsToNat (pad02 m) = m := by
        simp [pad02, digitsToNat]
        omega
      rw [this]
    · intro c hc
      simp [pad02] at hc
      rcases hc with hc | hc <;> simp [hc, isDigit] <;> omega
  simp [parsePeriod, htake, hdrop, hyear, hmonth]

/-- Witness for C7 at `(2023, 8)`: formatting gives `"2023_08"` and parsing
it back yields `(2023, 8)`. -/
theorem parse_format_roundtrip_witness :
    1000 ≤ 2023 ∧ 2023 ≤ 9999 ∧ 1 ≤ 8 ∧ 8 ≤ 12 ∧
    formatPeriod 2023 8 = [50, 48, 50, 51, 95, 48, 56] ∧
    parsePeriod (formatPeriod 2023 8) = some (2023, 8) :=
  ⟨by decide, by decide, by decide, by decide, by decide,
    parse_format_roundtrip 2023 8 (by decide) (by decide) (by decide) (by decide)⟩

/-- C8: every absent cell renders as the placeholder (a glyph distinct from
any value cell, including zero); every present cell's text is some prefix of
sign/integer digits followed by `'.'`, exactly two fractional digits and the
`'%'` suffix; the sign class uses the boundary `value >= 0`, so exactly zero
renders as `positive` (the non-negative class), never `negative`. -/
theorem render_cell_spec (q : ℚ) :
    ∃ pre d1 d2,
      renderCell (some q)
        = Cell.present (if 0 ≤ q then SignClass.positive else SignClass.negative)
            (pre ++ [46, d1, d2, 37]) ∧
      isDigit d1 = true ∧ isDigit d2 = true ∧
      (∀ c ∈ pre, c = 45 ∨ isDigit c = true) ∧
      renderCell none = Cell.absent ∧
      cellText (renderCell (some q)) ≠ cellText (renderCell none) ∧
      renderCell (some (0 : ℚ)) = Cell.present SignClass.positive [48, 46, 48, 48, 37] := by
  refine ⟨(if round (q * 100) < 0 then [45] else [])
      ++ natDigits ((round (q * 100)).natAbs / 100),
    48 + (round (q * 100)).natAbs % 100 / 10,
    48 + (round (q * 100)).natAbs % 100 % 10, ?_, ?_, ?_, ?_, rfl, ?_, ?_⟩
  · simp only [renderCell, formatPct, format2f, pad02, ge_iff_le]
    simp [List.append_assoc, Nat.mod_mod_of_dvd]
  · have : (round (q * 100)).natAbs % 100 / 10 ≤ 9 := by omega
    simp [isDigit]
    omega
  · have : (round (q * 100)).natAbs % 100 % 10 ≤ 9 := by omega
    simp [isDigit]
    omega
  · intro c hc
    rcases List.mem_append.mp hc with hc | hc
    · left
      rcases lt_or_le (round (q * 100)) 0 with hneg | hpos
      · rw [if_pos hneg] at hc
        simpa using hc
      · rw [if_neg (not_lt.mpr hpos)] at hc
        simp at hc
    · exact Or.inr (natDigits_all_digits _ c hc)
  · intro heq
    have hlen := congrArg List.length heq
    simp [cellText, renderCell, formatPct, format2f, pad02] at hlen
    have hne : (natDigits ((round (q * 100)).natAbs / 100)).length ≠ 0 := by
      simpa [List.length_eq_zero] using natDigits_ne_nil ((round (q * 100)).natAbs / 100)
    omega
  · norm_num [renderCell, formatPct, format2f, round_eq, pad02, natDigits, natDigitsAux]

/-- The body loop visits exactly the sorted year index, one row per year. -/
theorem renderRows_eq_map (ps : List Parsed) :
    renderRows ps = (yearList ps).map (renderRow ps) := by
  unfold renderRows
  rw [(yearList_sorted ps).insertionSort_eq]

/-- C5: when the pipeline succeeds, the report has exactly one row per year
occurring in the (parsed) input — no input year missing, no extra year —
and the rows are emitted in ascending year order. -/
theorem matrix_rows_exactly_input_years (rows : List Obs) (rep : Report)
    (h : generate_monthly_returns_report rows = .ok rep) :
    ∃ ps, parseAndBuild rows = .ok ps ∧
      rep.rows.map (fun r => r.year) = yearList ps ∧
      (∀ y : Int, y ∈ yearList ps ↔ ∃ p ∈ ps, p.year = y) ∧
      (yearList ps).Nodup ∧
      List.Sorted (· ≤ ·) (rep.rows.map (fun r => r.year)) := by
  unfold generate_monthly_returns_report at h
  cases hpb : parseAndBuild rows with
  | error e => rw [hpb] at h; exact absurd h (by simp)
  | ok ps =>
    rw [hpb] at h
    dsimp only at h
    cases hcs : computeStats ps with
    | error e => rw [hcs] at h; exact absurd h (by simp)
    | ok bw =>
      rw [hcs] at h
      dsimp only at h
      simp only [Except.ok.injEq] at h
      have hrows : rep.rows = renderRows ps := by rw [← h]
      have hyears : rep.rows.map (fun r => r.year) = yearList ps := by
        have hcomp : ((fun r : RenderedRow => r.year) ∘ renderRow ps) = fun y => y := by
          funext y
          rfl
        rw [hrows, renderRows_eq_map, List.map_map, hcomp]
        exact List.map_id _
      exact ⟨ps, rfl, hyears, fun y => mem_yearList ps y, yearList_nodup ps,
        hyears ▸ yearList_sorted ps⟩

/-- Witness for C5 at the spec's concrete scenario
`[("2022_01", 2.0), ("2022_02", -1.0), ("2023_01", 5.0)]`: the report rows
are exactly the years 2022 and 2023, in that order. -/
theorem matrix_rows_exactly_input_years_witness :
    ∃ rep, generate_monthly_returns_report
        [⟨[50, 48, 50, 50, 95, 48, 49], (2 : ℚ)⟩,
         ⟨[50, 48, 50, 50, 95, 48, 50], -1⟩,
         ⟨[50, 48, 50, 51, 95, 48, 49], 5⟩] = .ok rep ∧
      ∃ ps, parseAndBuild
          [⟨[50, 48, 50, 50, 95, 48, 49], (2 : ℚ)⟩,
           ⟨[50, 48, 50, 50, 95, 48, 50], -1⟩,
           ⟨[50, 48, 50, 51, 95, 48, 49], 5⟩] = .ok ps ∧
        rep.rows.map (fun r => r.year) = yearList ps ∧
        (∀ y : Int, y ∈ yearList ps ↔ ∃ p ∈ ps, p.year = y) ∧
        (yearList ps).Nodup ∧
        List.Sorted (· ≤ ·) (rep.rows.map (fun r => r.year)) := by
  cases hg : generate_monthly_returns_report
      [⟨[50, 48, 50, 50, 95, 48, 49], (2 : ℚ)⟩,
       ⟨[50, 48, 50, 50, 95, 48, 50], -1⟩,
       ⟨[50, 48, 50, 51, 95, 48, 49], 5⟩] with
  | error e =>
    have hok : (generate_monthly_returns_report
        [⟨[50, 48, 50, 50, 95, 48, 49], (2 : ℚ)⟩,
         ⟨[50, 48, 50, 50, 95, 48, 50], -1⟩,
         ⟨[50, 48, 50, 51, 95, 48, 49], 5⟩]).isOk = true := rfl
    rw [hg] at hok
    exact absurd hok (by simp [Except.isOk, Except.toBool])
  | ok rep =>
    exact ⟨rep, rfl, matrix_rows_exactly_input_years _ rep hg⟩

/-- C1 counterexample: for the malformed period `"2023-13"` (month 13) the
pipeline does **not** fail — it completes successfully, so no
`MalformedPeriodError` (or any error) is raised for an out-of-range month. -/
theorem month13_pipeline_succeeds :
    (generate_monthly_returns_report [⟨[50, 48, 50, 51, 45, 49, 51], (1 : ℚ)⟩]).isOk
      = true := rfl

/-- C1 amended: a non-numeric year slice (`"abcd_01"`) fails with the
`ValueError` of `astype(int)` carrying the offending slice `"abcd"` — there
is no `MalformedPeriodError` in the code; a month outside 1-12
(`"2023-13"`) parses without error to `(2023, 13)` and the observation is
then silently dropped: month 13 is not among the kept columns, the 2023 row
has no present value, and the pipeline succeeds; a missing delimiter
(`"202301"`) also raises nothing (the slice from index 5 is read as the
month). -/
theorem malformed_period_actual_behavior :
    generate_monthly_returns_report [⟨[97, 98, 99, 100, 95, 48, 49], (1 : ℚ)⟩]
      = .error (.intCastError [97, 98, 99, 100]) ∧
    parseObs [⟨[50, 48, 50, 51, 45, 49, 51], (1 : ℚ)⟩] = .ok [⟨2023, 13, 1⟩] ∧
    month_cols [⟨2023, 13, (1 : ℚ)⟩] = [] ∧
    presentVals [⟨2023, 13, (1 : ℚ)⟩] 2023 = [] ∧
    (generate_monthly_returns_report [⟨[50, 48, 50, 51, 45, 49, 51], (1 : ℚ)⟩]).isOk
      = true ∧
    (generate_monthly_returns_report [⟨[50, 48, 50, 51, 48, 49], (1 : ℚ)⟩]).isOk
      = true :=
  ⟨rfl, rfl, by decide, by decide, rfl, rfl⟩

/-- C2 counterexample: on empty input the matrix-building stage succeeds —
there is no emptiness check before statistics — and the failure is the
`ValueError` of `idxmax`, raised inside the summary-statistics block, not an
`EmptyInputError` raised before it. -/
theorem empty_input_fails_at_idxmax :
    parseAndBuild ([] : List Obs) = .ok [] ∧
    computeStats ([] : List Parsed) = .error .idxmaxEmpty ∧
    generate_monthly_returns_report ([] : List Obs) = .error .idxmaxEmpty :=
  ⟨rfl, rfl, rfl⟩

/-- C2 amended: for the empty observation collection the pipeline fails —
with the `ValueError` raised by `Series.idxmax` at the start of statistics
computation rather than an `EmptyInputError` beforehand — and no output
artifact is written. -/
theorem empty_input_error_and_no_artifact :
    generate_monthly_returns_report ([] : List Obs) = .error PipeError.idxmaxEmpty ∧
    writtenArtifact ([] : List Obs) = none :=
  ⟨rfl, rfl⟩

end WebReports
